import Mathlib

/-!
Verification of the `project_storage` inventory and booking engine.

This file shallowly embeds the business logic of the repository — the
Space approval state machine, the Installation Request workflow and its
conversion into Rack/Shelf records, the availability search, the best-fit
rack allocation, and the date-driven booking lifecycle — as executable
Lean definitions, and proves the stated properties about them.

Conventions of the embedding:
* Django `TextChoices` status fields are `String` codes, exactly the codes
  stored in the database (`"PENDING"`, `"ACTIVE"`, ...).
* Raising an exception is modelled by returning the exception value
  alongside the unmodified object: a stateful method on an object becomes
  a pure function returning the updated object (and store) next to an
  `Except`-style result.
* `DecimalField` money amounts are modelled as `ℚ` (the repository's
  amounts, e.g. `6.99`, are exact decimal fractions).
* `DateField` values are modelled as `Int` day numbers; subtracting two
  Python `date`s and taking `.days` is integer subtraction here.
  `django.utils.timezone.localdate()` becomes an explicit `today` argument.
* Count fields (`num_rack`, `num_shelves_per_rack`, `num_shelves_occupied`)
  and centimeter dimensions are modelled as `ℕ`; every write site in the
  repository supplies non-negative values for them.
-/

namespace ProjectStorage

/-- Fixed shelf length in cm (`listings/constants.py`, `SHELF_LENGTH = 50`). -/
def SHELF_LENGTH : Nat := 50

/-- Fixed shelf width in cm (`listings/constants.py`, `SHELF_WIDTH = 46`). -/
def SHELF_WIDTH : Nat := 46

/-- Fixed shelf height in cm (`listings/constants.py`, `SHELF_HEIGHT = 42`). -/
def SHELF_HEIGHT : Nat := 42

/-- A `listings.models.Space` row.  `renter` and `location` stand for the
foreign keys; `rack_set` is modelled separately where it is needed. -/
structure Space where
  renter : Nat
  location : Nat
  environment_conditions : String
  height : Nat
  status : String
  price_per_day : ℚ
  description : String
  deriving DecidableEq, Repr

/-- The status codes of `Space.Status` (`listings/models.py`). -/
def Space.Status.values : List String :=
  ["PENDING", "APPROVED", "REJECTED", "ON_HOLD"]

/-- The exception classes of `listings/exceptions.py` that
`SpaceStateService.transition` can raise. -/
inductive SpaceStateError where
  | InvalidSpaceStateError (status : String)
  | SpaceStateTransitionError (status new_status : String)
  deriving DecidableEq, Repr

/-- `SpaceStateService.is_valid_status`: membership of the code in
`Space.Status.values`. -/
def SpaceStateService.is_valid_status (status : String) : Bool :=
  decide (status ∈ Space.Status.values)

/-- `SpaceStateService.is_valid_transition` (`listings/services.py`). -/
def SpaceStateService.is_valid_transition (old_status new_status : String) : Bool :=
  if new_status = "PENDING" then false
  else if (old_status = "APPROVED" ∨ old_status = "ON_HOLD") ∧ new_status = "REJECTED" then
    false
  else if new_status = old_status then false
  else true

/-- `SpaceStateService.transition` (`listings/services.py`): returns the
space as it stands after the call next to the raised exception or the
returned `True`. -/
def SpaceStateService.transition (space : Space) (new_status : String) :
    Space × Except SpaceStateError Bool :=
  if ¬ SpaceStateService.is_valid_status new_status then
    (space, Except.error (SpaceStateError.InvalidSpaceStateError new_status))
  else if ¬ SpaceStateService.is_valid_transition space.status new_status then
    (space, Except.error (SpaceStateError.SpaceStateTransitionError space.status new_status))
  else
    ({ space with status := new_status }, Except.ok true)

/-- A `prelistings.models.InstallationRequest` row. -/
structure InstallationRequest where
  id : Nat
  renter : Nat
  location : Nat
  environment_conditions : String
  status : String
  price_per_day : ℚ
  description : String
  num_rack : Nat
  num_shelves_per_rack : Nat
  deriving DecidableEq, Repr

/-- The status codes of `InstallationRequest.Status` (`prelistings/models.py`). -/
def InstallationRequest.Status.values : List String :=
  ["PENDING", "APPROVED", "REJECTED", "COMPLETED"]

/-- The exception classes of `prelistings/exceptions.py`.  The first
constructor is the base `InstallationRequestError` class itself, which
`convert_to_space` raises with the request's current status as message. -/
inductive InstallationRequestError where
  | InstallationRequestError (message : String)
  | InvalidInstallationRequestStateError (status : String)
  | InstallationRequestStateTransitionError (status new_status : String)
  | IncompleteInstallationRequestError (message : String)
  deriving DecidableEq, Repr

/-- `InstallationRequestStateService.is_valid_status`. -/
def InstallationRequestStateService.is_valid_status (status : String) : Bool :=
  decide (status ∈ InstallationRequest.Status.values)

/-- `InstallationRequestStateService.is_valid_transition`
(`prelistings/services.py`): both explicit branches and the fallthrough
`else` return `True`. -/
def InstallationRequestStateService.is_valid_transition
    (old_status new_status : String) : Bool :=
  if old_status = "PENDING" ∧ (new_status = "APPROVED" ∨ new_status = "REJECTED") then
    true
  else if old_status = "APPROVED" ∧ new_status = "COMPLETED" then true
  else true

/-- `InstallationRequestStateService.transition` (`prelistings/services.py`). -/
def InstallationRequestStateService.transition
    (installation_request : InstallationRequest) (new_status : String) :
    InstallationRequest × Except InstallationRequestError Bool :=
  if ¬ InstallationRequestStateService.is_valid_status new_status then
    (installation_request,
      Except.error
        (InstallationRequestError.InvalidInstallationRequestStateError new_status))
  else if ¬ InstallationRequestStateService.is_valid_transition
      installation_request.status new_status then
    (installation_request,
      Except.error
        (InstallationRequestError.InstallationRequestStateTransitionError
          installation_request.status new_status))
  else if new_status = "COMPLETED" ∧
      installation_request.num_rack * installation_request.num_shelves_per_rack = 0 then
    (installation_request,
      Except.error
        (InstallationRequestError.IncompleteInstallationRequestError
          "Number of racks and shelves per rack must be non-zero values"))
  else
    ({ installation_request with status := new_status }, Except.ok true)

/-- A `listings.models.Shelf` row, carried inside its rack's `shelf_set`. -/
structure Shelf where
  shelf_label : String
  is_available : Bool
  deriving DecidableEq, Repr

/-- A `listings.models.Rack` row together with its `shelf_set`. -/
structure Rack where
  length : Nat
  shelves : List Shelf
  deriving DecidableEq, Repr

/-- Python's `str.zfill`: left-pad with `'0'` up to `width` characters. -/
def zfill (s : String) (width : Nat) : String :=
  if width ≤ s.length then s
  else String.mk (List.replicate (width - s.length) '0') ++ s

/-- `SpaceService.create_shelves` (`listings/services.py`): the racks (with
their shelves) created for a new space.  A fresh `Shelf()` has the model
default `is_available = True`. -/
def SpaceService.create_shelves (num_rack num_shelf_per_rack : Nat) : List Rack :=
  (List.range num_rack).map fun _ =>
    { length := num_shelf_per_rack * SHELF_LENGTH
      shelves := (List.range num_shelf_per_rack).map fun i =>
        { shelf_label := zfill (toString i) 3, is_available := true } }

/-- `InstallationRequestService.convert_to_space` (`prelistings/services.py`).
`requests` is the installation-request table; on success the source request
is deleted from it and the created `Space` is returned together with the
racks and shelves generated by `create_shelves`. -/
def InstallationRequestService.convert_to_space
    (requests : List InstallationRequest)
    (installation_request : InstallationRequest) :
    Except InstallationRequestError (List InstallationRequest × Space × List Rack) :=
  if installation_request.status = "COMPLETED" then
    let space : Space :=
      { renter := installation_request.renter
        location := installation_request.location
        environment_conditions := installation_request.environment_conditions
        height := SHELF_HEIGHT * installation_request.num_rack
        status := "APPROVED"
        price_per_day := installation_request.price_per_day
        description := installation_request.description }
    let racks := SpaceService.create_shelves installation_request.num_rack
      installation_request.num_shelves_per_rack
    Except.ok
      (requests.filter (fun r => r.id != installation_request.id), space, racks)
  else
    Except.error
      (InstallationRequestError.InstallationRequestError installation_request.status)

/-- The annotation `Count('shelf', filter = Q(shelf__is_available = True))`
used by the allocation and search queries: the number of currently
available shelves of a rack. -/
def rack_available_shelves (rack : Rack) : Nat :=
  (rack.shelves.filter (fun s => s.is_available)).length

/-- Stable insertion of a rack into a list ordered by ascending
`available_shelves` count (models SQL `ORDER BY available_shelves`). -/
def insert_by_available (rack : Rack) : List Rack → List Rack
  | [] => [rack]
  | r :: rs =>
    if rack_available_shelves rack ≤ rack_available_shelves r then rack :: r :: rs
    else r :: insert_by_available rack rs

/-- Stable sort of racks by ascending `available_shelves` count. -/
def sort_by_available : List Rack → List Rack
  | [] => []
  | r :: rs => insert_by_available r (sort_by_available rs)

/-- `BookingFormService.get_rack` (`bookings/services.py`): annotate the
space's racks with their available-shelf count, keep those with at least
`min_shelves`, order ascending by the count and take the first.
`racks` is the space's `rack_set`. -/
def BookingFormService.get_rack (racks : List Rack) (min_shelves : Nat) : Option Rack :=
  (sort_by_available
    (racks.filter (fun rack => decide (min_shelves ≤ rack_available_shelves rack)))).head?

/-- A `Space` row as seen by the availability search: its id, status, the
`area` code of its location, and its `rack_set`. -/
structure DbSpace where
  id : Nat
  status : String
  area : String
  racks : List Rack
  deriving DecidableEq, Repr

/-- The annotations `get_available_spaces` attaches to each surviving
space: `available_shelves` (the best single rack's available-shelf count,
`None` when the space has no racks) and `num_shelves`
(`min_shelves_required`). -/
structure AnnotatedSpace where
  space : DbSpace
  available_shelves : Option Nat
  num_shelves : Nat
  deriving DecidableEq, Repr

/-- `math.ceil(a / b)` for natural `a` and positive natural `b`. -/
def ceil_div (a b : Nat) : Nat := (a + b - 1) / b

/-- Character-list matching at the head: does `needle` start `hay`? -/
def startsWithList : List Char → List Char → Bool
  | _, [] => true
  | [], _ :: _ => false
  | h :: hs, n :: ns => h = n && startsWithList hs ns

/-- Character-list substring test. -/
def containsList : List Char → List Char → Bool
  | [], needle => needle.isEmpty
  | hay@(_ :: hs), needle => startsWithList hay needle || containsList hs needle

/-- Django's `icontains` lookup: case-insensitive substring containment. -/
def icontains (haystack needle : String) : Bool :=
  containsList haystack.toLower.data needle.toLower.data

/-- `SpaceService.get_available_spaces` (`listings/services.py`).  `db` is
the `Space` table with each space's racks and shelves attached.  Follows
the source line by line: restrict to `APPROVED`, normalize the footprint
so length ≥ width, return an empty queryset when the normalized width or
the height exceeds the fixed shelf dimensions, apply the optional
case-insensitive location filter, keep spaces owning a rack at least as
long as the normalized length, collect the ids of spaces owning a rack
with at least `min_shelves_required` available shelves, restrict to those
ids, and annotate the survivors. -/
def SpaceService.get_available_spaces (db : List DbSpace) (search_location : String)
    (search_length search_width search_height : Nat) : List AnnotatedSpace :=
  let available_spaces := db.filter (fun s => s.status == "APPROVED")
  let sl := max search_length search_width
  let sw := min search_length search_width
  if SHELF_WIDTH < sw then []
  else if SHELF_HEIGHT < search_height then []
  else
    let available_spaces :=
      if search_location ≠ "" then
        available_spaces.filter (fun s => icontains s.area search_location)
      else available_spaces
    let available_spaces :=
      available_spaces.filter (fun s => s.racks.any (fun rack => decide (sl ≤ rack.length)))
    let min_shelves_required := ceil_div sl SHELF_LENGTH
    let space_ids :=
      (available_spaces.filter (fun s =>
        s.racks.any (fun rack =>
          decide (min_shelves_required ≤ rack_available_shelves rack)))).map DbSpace.id
    let available_spaces := available_spaces.filter (fun s => space_ids.contains s.id)
    available_spaces.map (fun s =>
      { space := s
        available_shelves := (s.racks.map rack_available_shelves).max?
        num_shelves := min_shelves_required })

/-- The status codes of `Booking.Status` (`bookings/models.py`). -/
def Booking.Status.values : List String :=
  ["BOOKED", "ACTIVE", "PAST", "CANCELLED"]

/-- A `Shelf` row as stored in the database, with its primary key and the
foreign key to its rack. -/
structure StoreShelf where
  id : Nat
  rack_id : Nat
  is_available : Bool
  deriving DecidableEq, Repr

/-- A `bookings.models.Booking` row. -/
structure StoreBooking where
  id : Nat
  lessee : Nat
  rack_id : Nat
  num_shelves_occupied : Nat
  start_date : Int
  end_date : Int
  total_price : ℚ
  status : String
  occupying_space : Bool
  deriving DecidableEq, Repr

/-- The part of the database the booking lifecycle reads and writes: the
`Shelf` table and the `Booking` table. -/
structure Store where
  shelves : List StoreShelf
  bookings : List StoreBooking
  deriving DecidableEq, Repr

/-- Stable insertion of a shelf into a list ordered by ascending id
(models the SQL `ORDER BY id`). -/
def insert_by_id (s : StoreShelf) : List StoreShelf → List StoreShelf
  | [] => [s]
  | t :: ts => if s.id ≤ t.id then s :: t :: ts else t :: insert_by_id s ts

/-- Stable sort of shelves by ascending id. -/
def sort_by_id : List StoreShelf → List StoreShelf
  | [] => []
  | s :: ss => insert_by_id s (sort_by_id ss)

/-- `BookingService.get_shelves` (`bookings/services.py`): from the
booking's rack take the shelves whose availability bit matches the
booking's occupancy (unavailable ones when the booking occupies space,
available ones otherwise), order them by id, limit to
`num_shelves_occupied`, and return their ids. -/
def BookingService.get_shelves (store : Store) (booking : StoreBooking) : List Nat :=
  let shelves := store.shelves.filter (fun s => s.rack_id == booking.rack_id)
  let shelves :=
    if booking.occupying_space then shelves.filter (fun s => s.is_available == false)
    else shelves.filter (fun s => s.is_available == true)
  ((sort_by_id shelves).take booking.num_shelves_occupied).map StoreShelf.id

/-- The bulk query `queryset.update(is_available = value)` applied to the
shelves whose ids are in `ids`. -/
def update_shelves (store : Store) (ids : List Nat) (value : Bool) : Store :=
  { store with
    shelves := store.shelves.map (fun s =>
      if ids.contains s.id then { s with is_available := value } else s) }

/-- `booking.save()`: persist the in-memory booking over the row(s) with
its primary key. -/
def StoreBooking.save (store : Store) (booking : StoreBooking) : Store :=
  { store with
    bookings := store.bookings.map (fun x => if x.id == booking.id then booking else x) }

/-- `BookingStateService.release_space`: mark the booking's derived shelf
set available and clear the occupancy flag. -/
def BookingStateService.release_space (store : Store) (booking : StoreBooking) :
    Store × StoreBooking :=
  (update_shelves store (BookingService.get_shelves store booking) true,
    { booking with occupying_space := false })

/-- `BookingStateService.occupy_space`: mark the booking's derived shelf
set unavailable and set the occupancy flag. -/
def BookingStateService.occupy_space (store : Store) (booking : StoreBooking) :
    Store × StoreBooking :=
  (update_shelves store (BookingService.get_shelves store booking) false,
    { booking with occupying_space := true })

/-- `BookingStateService.update_space` (`bookings/services.py`): sync the
shelf availability with the booking status, then `booking.save()`.
Returns the store after the save together with the in-memory booking. -/
def BookingStateService.update_space (store : Store) (booking : StoreBooking) :
    Store × StoreBooking :=
  let p :=
    if booking.status ≠ "ACTIVE" ∧ booking.occupying_space then
      BookingStateService.release_space store booking
    else if booking.status = "ACTIVE" ∧ ¬ booking.occupying_space then
      BookingStateService.occupy_space store booking
    else (store, booking)
  (StoreBooking.save p.1 p.2, p.2)

/-- `BookingStateService.is_valid_status`. -/
def BookingStateService.is_valid_status (status : String) : Bool :=
  decide (status ∈ Booking.Status.values)

/-- The automatic branch of `BookingStateService.update_status`: when the
booking is not cancelled, recompute the status from today's date relative
to the booking's date range. -/
def auto_status (today : Int) (booking : StoreBooking) : StoreBooking :=
  if booking.status ≠ "CANCELLED" then
    if booking.end_date < today then { booking with status := "PAST" }
    else if booking.start_date ≤ today then { booking with status := "ACTIVE" }
    else { booking with status := "BOOKED" }
  else booking

/-- `BookingStateService.update_status` (`bookings/services.py`): manual
override when a recognized `new_status` is supplied, otherwise the
automatic date-driven recomputation; always followed by `update_space`
(which persists the booking).  `today` models `localdate()`. -/
def BookingStateService.update_status (today : Int) (store : Store)
    (booking : StoreBooking) (new_status : Option String) : Store × StoreBooking :=
  let booking :=
    match new_status with
    | some ns =>
      if BookingStateService.is_valid_status ns then { booking with status := ns }
      else booking
    | none => auto_status today booking
  BookingStateService.update_space store booking

/-- `BookingStateService.update_status_all` (`bookings/services.py`):
iterate over every booking in the table and re-run the automatic
`update_status` on it. -/
def BookingStateService.update_status_all (today : Int) (store : Store) : Store :=
  store.bookings.foldl
    (fun st b => (BookingStateService.update_status today st b none).1) store

/-- `DateMgr.get_total_days` (`bookings/services.py`):
`(end_date - start_date).days + 1`. -/
def DateMgr.get_total_days (start_date end_date : Int) : Int :=
  (end_date - start_date) + 1

/-- `BookingService.get_total_days`. -/
def BookingService.get_total_days (booking : StoreBooking) : Int :=
  DateMgr.get_total_days booking.start_date booking.end_date

/-- `BookingService.get_price_per_day`:
`total_price / (num_shelves_occupied * get_total_days(booking))`. -/
def BookingService.get_price_per_day (booking : StoreBooking) : ℚ :=
  booking.total_price /
    ((booking.num_shelves_occupied : ℚ) * (BookingService.get_total_days booking : ℚ))

/-- Proof-side characterization of what one automatic `update_status` pass
writes back for a booking: the date-recomputed status together with the
occupancy flag `update_space` derives from it. -/
def process_booking (today : Int) (booking : StoreBooking) : StoreBooking :=
  let b := auto_status today booking
  { b with occupying_space := (b.status == "ACTIVE") }

/-- Proof-side abbreviation for the map a `save` performs on the booking
table: overwrite the row(s) carrying the saved booking's primary key. -/
def replace_by_id (bookings : List StoreBooking) (b : StoreBooking) : List StoreBooking :=
  bookings.map (fun x => if x.id == b.id then b else x)

/-! Concrete sample data used by the witness theorems. -/

/-- A sample approved space. -/
def spW2 : Space :=
  { renter := 1, location := 1, environment_conditions := "AC", height := 42
    status := "APPROVED", price_per_day := 1, description := "sample" }

/-- A sample completed installation request with 2 racks of 3 shelves. -/
def rW4 : InstallationRequest :=
  { id := 7, renter := 1, location := 2, environment_conditions := "AC"
    status := "COMPLETED", price_per_day := 699/100, description := "sample"
    num_rack := 2, num_shelves_per_rack := 3 }

/-- A sample pending installation request with no racks configured. -/
def rW3 : InstallationRequest :=
  { rW4 with id := 8, status := "PENDING", num_rack := 0, num_shelves_per_rack := 0 }

/-- A rack with 5 available shelves. -/
def rackA5 : Rack :=
  { length := 250, shelves := List.replicate 5 { shelf_label := "000", is_available := true } }

/-- A rack with exactly 2 available shelves. -/
def rackB2 : Rack :=
  { length := 100
    shelves := [{ shelf_label := "000", is_available := true },
      { shelf_label := "001", is_available := true },
      { shelf_label := "002", is_available := false }] }

/-- A rack with 8 available shelves. -/
def rackC8 : Rack :=
  { length := 400, shelves := List.replicate 8 { shelf_label := "000", is_available := true } }

/-- A rack of length 100 with 2 available shelves, for the search theorems. -/
def rackW7 : Rack :=
  { length := 100
    shelves := [{ shelf_label := "000", is_available := true },
      { shelf_label := "001", is_available := true }] }

/-- A sample approved space (search view) owning only `rackW7`. -/
def spW7 : DbSpace :=
  { id := 0, status := "APPROVED", area := "AMK", racks := [rackW7] }

/-- A one-space database for the availability-search theorems. -/
def dbW7 : List DbSpace := [spW7]

/-- A sample booking (dates 0..9, one shelf, not yet occupying). -/
def bW6 : StoreBooking :=
  { id := 1, lessee := 1, rack_id := 1, num_shelves_occupied := 1
    start_date := 0, end_date := 9, total_price := 699/100
    status := "BOOKED", occupying_space := false }

/-- A sample store holding `bW6` and its rack's two shelves. -/
def storeW6 : Store :=
  { shelves := [{ id := 1, rack_id := 1, is_available := true },
      { id := 2, rack_id := 1, is_available := true }]
    bookings := [bW6] }

/-- A two-booking store for the idempotence witness: one booking currently
in range, one already past and still holding its shelf. -/
def storeW8 : Store :=
  { shelves := [{ id := 1, rack_id := 1, is_available := true },
      { id := 2, rack_id := 1, is_available := false },
      { id := 3, rack_id := 2, is_available := false }]
    bookings := [bW6,
      { id := 2, lessee := 2, rack_id := 2, num_shelves_occupied := 1
        start_date := -10, end_date := -1, total_price := 1
        status := "ACTIVE", occupying_space := true }] }

/-- The booking of the pricing example: 2 shelves for the 3 inclusive days
0..2 at the location rate 6.99, so `total_price = 3 × 6.99 × 2 = 41.94`. -/
def bW9 : StoreBooking :=
  { id := 9, lessee := 1, rack_id := 1, num_shelves_occupied := 2
    start_date := 0, end_date := 2, total_price := 4194/100
    status := "BOOKED", occupying_space := false }

/-- A past booking still holding its shelf (release-branch sample). -/
def bW1 : StoreBooking :=
  { id := 3, lessee := 1, rack_id := 1, num_shelves_occupied := 1
    start_date := -10, end_date := -1, total_price := 1
    status := "PAST", occupying_space := true }

/-- A store holding `bW1` and its rack's shelves, one of them taken. -/
def storeW1 : Store :=
  { shelves := [{ id := 1, rack_id := 1, is_available := false },
      { id := 2, rack_id := 1, is_available := true }]
    bookings := [bW1] }

/-! The theorems. -/

/-- Claim C2: `is_valid_transition(old, new)` returns `False` exactly when
`new == Pending`, or `new == old`, or `old ∈ {Approved, OnHold}` with
`new == Rejected`, and `True` otherwise; `transition` raises
`InvalidSpaceStateError` exactly for unknown codes, raises
`SpaceStateTransitionError` exactly when the rule disallows the pair,
otherwise persists the new status and returns `True`; the space is
unchanged whenever it raises.  In particular Approved→Rejected,
Approved→Approved and OnHold→Rejected fail while Pending→Approved and
Rejected→OnHold succeed. -/
theorem space_transition_correct :
    (∀ old_status new_status : String,
      SpaceStateService.is_valid_transition old_status new_status = false ↔
        (new_status = "PENDING" ∨ new_status = old_status ∨
          ((old_status = "APPROVED" ∨ old_status = "ON_HOLD") ∧ new_status = "REJECTED")))
    ∧ (∀ (sp : Space) (ns : String),
      (SpaceStateService.transition sp ns).2 =
          Except.error (SpaceStateError.InvalidSpaceStateError ns) ↔
        ns ∉ Space.Status.values)
    ∧ (∀ (sp : Space) (ns : String),
      (SpaceStateService.transition sp ns).2 =
          Except.error (SpaceStateError.SpaceStateTransitionError sp.status ns) ↔
        (ns ∈ Space.Status.values ∧
          SpaceStateService.is_valid_transition sp.status ns = false))
    ∧ (∀ (sp : Space) (ns : String),
      (SpaceStateService.transition sp ns).2 = Except.ok true ↔
        (ns ∈ Space.Status.values ∧
          SpaceStateService.is_valid_transition sp.status ns = true))
    ∧ (∀ (sp : Space) (ns : String),
      (SpaceStateService.transition sp ns).2 = Except.ok true →
        (SpaceStateService.transition sp ns).1 = { sp with status := ns })
    ∧ (∀ (sp : Space) (ns : String) (e : SpaceStateError),
      (SpaceStateService.transition sp ns).2 = Except.error e →
        (SpaceStateService.transition sp ns).1 = sp)
    ∧ SpaceStateService.is_valid_transition "APPROVED" "REJECTED" = false
    ∧ SpaceStateService.is_valid_transition "APPROVED" "APPROVED" = false
    ∧ SpaceStateService.is_valid_transition "ON_HOLD" "REJECTED" = false
    ∧ SpaceStateService.is_valid_transition "PENDING" "APPROVED" = true
    ∧ SpaceStateService.is_valid_transition "REJECTED" "ON_HOLD" = true := by
  refine ⟨?_, ?_, ?_, ?_, ?_, ?_, by decide, by decide, by decide, by decide, by decide⟩
  · intro o n
    unfold SpaceStateService.is_valid_transition
    split_ifs with h1 h2 h3 <;> simp_all
  · intro sp ns
    unfold SpaceStateService.transition
    split_ifs with h1 h2 <;>
      simp_all [SpaceStateService.is_valid_status]
  · intro sp ns
    unfold SpaceStateService.transition
    split_ifs with h1 h2 <;>
      simp_all [SpaceStateService.is_valid_status]
  · intro sp ns
    unfold SpaceStateService.transition
    split_ifs with h1 h2 <;>
      simp_all [SpaceStateService.is_valid_status]
  · intro sp ns
    unfold SpaceStateService.transition
    split_ifs with h1 h2 <;> simp_all
  · intro sp ns e
    unfold SpaceStateService.transition
    split_ifs with h1 h2 <;> simp_all

/-- Claim C2 witness: concrete instantiation of the hypothesis-bearing
conjuncts at the sample approved space. -/
theorem space_transition_correct_witness :
    (SpaceStateService.transition spW2 "ON_HOLD").2 = Except.ok true ∧
    (SpaceStateService.transition spW2 "ON_HOLD").1 = { spW2 with status := "ON_HOLD" } ∧
    (SpaceStateService.transition spW2 "REJECTED").2 =
      Except.error (SpaceStateError.SpaceStateTransitionError "APPROVED" "REJECTED") ∧
    (SpaceStateService.transition spW2 "REJECTED").1 = spW2 :=
  ⟨(space_transition_correct.2.2.2.1 spW2 "ON_HOLD").2 (by decide),
    space_transition_correct.2.2.2.2.1 spW2 "ON_HOLD"
      ((space_transition_correct.2.2.2.1 spW2 "ON_HOLD").2 (by decide)),
    (space_transition_correct.2.2.1 spW2 "REJECTED").2 (by decide),
    space_transition_correct.2.2.2.2.2.1 spW2 "REJECTED"
      (SpaceStateError.SpaceStateTransitionError "APPROVED" "REJECTED")
      ((space_transition_correct.2.2.1 spW2 "REJECTED").2 (by decide))⟩

/-- Claim C3: the Installation Request guard accepts every pair
(`is_valid_transition` falls through to `True`); `transition` raises
`InvalidInstallationRequestStateError` exactly for unknown target codes,
raises `IncompleteInstallationRequestError` exactly when the target is
`Completed` and `num_rack * num_shelves_per_rack == 0`, and otherwise
persists the new status and returns `True`; the request is unchanged
whenever an error is raised. -/
theorem installation_request_transition_correct :
    (∀ old_status new_status : String,
      InstallationRequestStateService.is_valid_transition old_status new_status = true)
    ∧ (∀ (r : InstallationRequest) (ns : String),
      (InstallationRequestStateService.transition r ns).2 =
          Except.error
            (InstallationRequestError.InvalidInstallationRequestStateError ns) ↔
        ns ∉ InstallationRequest.Status.values)
    ∧ (∀ (r : InstallationRequest) (ns : String),
      (InstallationRequestStateService.transition r ns).2 =
          Except.error
            (InstallationRequestError.IncompleteInstallationRequestError
              "Number of racks and shelves per rack must be non-zero values") ↔
        (ns = "COMPLETED" ∧ r.num_rack * r.num_shelves_per_rack = 0))
    ∧ (∀ (r : InstallationRequest) (ns : String),
      (InstallationRequestStateService.transition r ns).2 = Except.ok true ↔
        (ns ∈ InstallationRequest.Status.values ∧
          ¬ (ns = "COMPLETED" ∧ r.num_rack * r.num_shelves_per_rack = 0)))
    ∧ (∀ (r : InstallationRequest) (ns : String),
      (InstallationRequestStateService.transition r ns).2 = Except.ok true →
        (InstallationRequestStateService.transition r ns).1 = { r with status := ns })
    ∧ (∀ (r : InstallationRequest) (ns : String) (e : InstallationRequestError),
      (InstallationRequestStateService.transition r ns).2 = Except.error e →
        (InstallationRequestStateService.transition r ns).1 = r) := by
  have hvalid : ∀ old_status new_status : String,
      InstallationRequestStateService.is_valid_transition old_status new_status = true := by
    intro o n
    unfold InstallationRequestStateService.is_valid_transition
    split_ifs <;> rfl
  refine ⟨hvalid, ?_, ?_, ?_, ?_, ?_⟩
  · intro r ns
    unfold InstallationRequestStateService.transition
    split_ifs with h1 h2 h3 <;>
      simp_all [InstallationRequestStateService.is_valid_status]
  · intro r ns
    unfold InstallationRequestStateService.transition
    split_ifs with h1 h2 h3 <;>
      simp_all [InstallationRequestStateService.is_valid_status]
    intro hns
    exact absurd (hns ▸ (by decide : "COMPLETED" ∈ InstallationRequest.Status.values)) h1
  · intro r ns
    unfold InstallationRequestStateService.transition
    split_ifs with h1 h2 h3 <;>
      simp_all [InstallationRequestStateService.is_valid_status]
  · intro r ns
    unfold InstallationRequestStateService.transition
    split_ifs with h1 h2 h3 <;> simp_all
  · intro r ns e
    unfold InstallationRequestStateService.transition
    split_ifs with h1 h2 h3 <;> simp_all

/-- Claim C3 witness: concrete instantiations — completing the unconfigured
request `rW3` hits the incomplete-configuration error and leaves it
unchanged, approving it succeeds, and a junk code is rejected. -/
theorem installation_request_transition_correct_witness :
    (InstallationRequestStateService.transition rW3 "COMPLETED").2 =
      Except.error
        (InstallationRequestError.IncompleteInstallationRequestError
          "Number of racks and shelves per rack must be non-zero values") ∧
    (InstallationRequestStateService.transition rW3 "COMPLETED").1 = rW3 ∧
    (InstallationRequestStateService.transition rW3 "APPROVED").2 = Except.ok true ∧
    (InstallationRequestStateService.transition rW3 "APPROVED").1 =
      { rW3 with status := "APPROVED" } ∧
    (InstallationRequestStateService.transition rW3 "JUNK").2 =
      Except.error
        (InstallationRequestError.InvalidInstallationRequestStateError "JUNK") :=
  ⟨(installation_request_transition_correct.2.2.1 rW3 "COMPLETED").2 (by decide),
    installation_request_transition_correct.2.2.2.2.2 rW3 "COMPLETED" _
      ((installation_request_transition_correct.2.2.1 rW3 "COMPLETED").2 (by decide)),
    (installation_request_transition_correct.2.2.2.1 rW3 "APPROVED").2 (by decide),
    installation_request_transition_correct.2.2.2.2.1 rW3 "APPROVED"
      ((installation_request_transition_correct.2.2.2.1 rW3 "APPROVED").2 (by decide)),
    (installation_request_transition_correct.2.1 rW3 "JUNK").2 (by decide)⟩

/-- Sum of a constant map: each of `l`'s elements contributes `m`. -/
theorem sum_map_const {α : Type} (l : List α) (m : ℕ) :
    (l.map (fun _ => m)).sum = l.length * m := by
  induction l with
  | nil => simp
  | cons a t ih => simp [ih, Nat.succ_mul, Nat.add_comm]

/-- Claim C4: `convert_to_space(request)` raises the base error carrying the
current status unless the request is `Completed`; a completed request
yields a Space with status forced to `Approved`, height `42 × num_rack`
and the request's price, `num_rack` racks of length
`num_shelves_per_rack × 50`, `num_shelves_per_rack` shelves per rack with
zero-padded labels `"000", "001", …`, all available — `num_rack ×
num_shelves_per_rack` shelves in total — and the source request is
deleted while every other request survives. -/
theorem convert_to_space_correct (requests : List InstallationRequest)
    (r : InstallationRequest) :
    (r.status ≠ "COMPLETED" →
      InstallationRequestService.convert_to_space requests r =
        Except.error (InstallationRequestError.InstallationRequestError r.status))
    ∧ (∀ (requests' : List InstallationRequest) (space : Space) (racks : List Rack),
      InstallationRequestService.convert_to_space requests r =
          Except.ok (requests', space, racks) →
        r.status = "COMPLETED" ∧
        space.status = "APPROVED" ∧
        space.height = SHELF_HEIGHT * r.num_rack ∧
        space.price_per_day = r.price_per_day ∧
        racks.length = r.num_rack ∧
        racks.all (fun rack =>
          rack.length == r.num_shelves_per_rack * SHELF_LENGTH &&
          rack.shelves.length == r.num_shelves_per_rack &&
          rack.shelves.all (fun s => s.is_available) &&
          decide (rack.shelves.map Shelf.shelf_label =
            (List.range r.num_shelves_per_rack).map (fun i => zfill (toString i) 3))) =
          true ∧
        (racks.map (fun rack => rack.shelves.length)).sum =
          r.num_rack * r.num_shelves_per_rack ∧
        requests'.all (fun x => x.id != r.id) = true ∧
        requests.all (fun x => x.id == r.id || decide (x ∈ requests')) = true)
    ∧ (r.status = "COMPLETED" →
      (InstallationRequestService.convert_to_space requests r).isOk = true) := by
  refine ⟨?_, ?_, ?_⟩
  · intro h
    unfold InstallationRequestService.convert_to_space
    rw [if_neg h]
  · intro requests' space racks h
    unfold InstallationRequestService.convert_to_space at h
    by_cases hst : r.status = "COMPLETED"
    · rw [if_pos hst] at h
      simp only [Except.ok.injEq, Prod.mk.injEq] at h
      obtain ⟨hreq, hspace, hracks⟩ := h
      subst hreq hspace hracks
      refine ⟨hst, rfl, rfl, rfl, by simp [SpaceService.create_shelves], ?_, ?_, ?_, ?_⟩
      · rw [List.all_eq_true]
        intro rack hrack
        simp only [SpaceService.create_shelves, List.mem_map] at hrack
        obtain ⟨i, _, hrk⟩ := hrack
        subst hrk
        simp [List.map_map, Function.comp]
      · simp [SpaceService.create_shelves, List.map_map, Function.comp, sum_map_const]
      · rw [List.all_eq_true]
        intro x hx
        rw [List.mem_filter] at hx
        exact hx.2
      · rw [List.all_eq_true]
        intro x hx
        by_cases hid : x.id = r.id
        · simp [hid]
        · simp only [Bool.or_eq_true, beq_iff_eq, decide_eq_true_eq]
          exact Or.inr (List.mem_filter.2 ⟨hx, by simp [hid]⟩)
    · rw [if_neg hst] at h
      exact absurd h (by simp)
  · intro h
    unfold InstallationRequestService.convert_to_space
    rw [if_pos h]
    rfl

/-- Claim C4 witness: converting the completed request `rW4`
(`num_rack = 2`, `num_shelves_per_rack = 3`) succeeds and yields 2 racks
of length 150 holding 6 available shelves in total. -/
theorem convert_to_space_correct_witness :
    rW4.status = "COMPLETED" ∧
    ((InstallationRequestService.convert_to_space [rW3, rW4] rW4).isOk = true) ∧
    ((SpaceService.create_shelves rW4.num_rack rW4.num_shelves_per_rack).map
        (fun rack => rack.shelves.length)).sum = rW4.num_rack * rW4.num_shelves_per_rack :=
  ⟨by decide, (convert_to_space_correct [rW3, rW4] rW4).2.2 (by decide),
    ((convert_to_space_correct [rW3, rW4] rW4).2.1
      ([rW3].filter (fun x => x.id != rW4.id))
      { renter := rW4.renter, location := rW4.location
        environment_conditions := rW4.environment_conditions
        height := SHELF_HEIGHT * rW4.num_rack, status := "APPROVED"
        price_per_day := rW4.price_per_day, description := rW4.description }
      (SpaceService.create_shelves rW4.num_rack rW4.num_shelves_per_rack)
      (by rfl)).2.2.2.2.2.2.1⟩

/-- Inserting into the availability-ordered list never yields an empty list. -/
theorem insert_by_available_ne_nil (r : Rack) (l : List Rack) :
    insert_by_available r l ≠ [] := by
  cases l with
  | nil => simp [insert_by_available]
  | cons t ts =>
    unfold insert_by_available
    split_ifs <;> simp

/-- The availability sort returns an empty list only for an empty input. -/
theorem sort_by_available_eq_nil_iff (l : List Rack) :
    sort_by_available l = [] ↔ l = [] := by
  cases l with
  | nil => simp [sort_by_available]
  | cons r rs => simp [sort_by_available, insert_by_available_ne_nil]

/-- The head of the availability sort is an input rack of minimal
available-shelf count. -/
theorem sort_by_available_head_min (l : List Rack) :
    ∀ r t, sort_by_available l = r :: t →
      r ∈ l ∧ ∀ y ∈ l, rack_available_shelves r ≤ rack_available_shelves y := by
  induction l with
  | nil => intro r t h; simp [sort_by_available] at h
  | cons x xs ih =>
    intro r t h
    unfold sort_by_available at h
    cases hs : sort_by_available xs with
    | nil =>
      rw [hs] at h
      unfold insert_by_available at h
      injection h with h1 h2
      subst h1
      have hxs : xs = [] := (sort_by_available_eq_nil_iff xs).1 hs
      subst hxs
      refine ⟨List.mem_cons_self _ _, ?_⟩
      intro y hy
      rcases List.mem_cons.1 hy with rfl | hy'
      · exact le_refl _
      · exact absurd hy' (List.not_mem_nil y)
    | cons m t' =>
      rw [hs] at h
      obtain ⟨hm_mem, hm_min⟩ := ih m t' hs
      unfold insert_by_available at h
      split_ifs at h with hle
      · injection h with h1 h2
        subst h1
        refine ⟨List.mem_cons_self _ _, ?_⟩
        intro y hy
        rcases List.mem_cons.1 hy with rfl | hy'
        · exact le_refl _
        · exact le_trans hle (hm_min y hy')
      · injection h with h1 h2
        subst h1
        refine ⟨List.mem_cons_of_mem _ hm_mem, ?_⟩
        intro y hy
        rcases List.mem_cons.1 hy with rfl | hy'
        · exact le_of_lt (lt_of_not_le hle)
        · exact hm_min y hy'

/-- Claim C5: `get_rack(space, min_shelves)` returns `None` exactly when no
rack of the space has at least `min_shelves` available shelves, and
otherwise returns a qualifying rack with the fewest available shelves
(best fit); for available-shelf counts `[5, 2, 8]` and a request for 2 it
returns the rack with exactly 2. -/
theorem get_rack_best_fit (racks : List Rack) (min_shelves : Nat) :
    (BookingFormService.get_rack racks min_shelves = none ↔
      ∀ rack ∈ racks, rack_available_shelves rack < min_shelves)
    ∧ (∀ rack, BookingFormService.get_rack racks min_shelves = some rack →
      rack ∈ racks ∧ min_shelves ≤ rack_available_shelves rack ∧
        ∀ rack' ∈ racks, min_shelves ≤ rack_available_shelves rack' →
          rack_available_shelves rack ≤ rack_available_shelves rack')
    ∧ BookingFormService.get_rack [rackA5, rackB2, rackC8] 2 = some rackB2 := by
  refine ⟨?_, ?_, by decide⟩
  · unfold BookingFormService.get_rack
    rw [List.head?_eq_none_iff, sort_by_available_eq_nil_iff, List.filter_eq_nil_iff]
    simp [Nat.lt_iff_add_one_le, Nat.not_le]
  · intro rack h
    unfold BookingFormService.get_rack at h
    cases hs : sort_by_available
        (racks.filter (fun rk => decide (min_shelves ≤ rack_available_shelves rk))) with
    | nil => rw [hs] at h; simp at h
    | cons r t =>
      rw [hs] at h
      simp only [List.head?_cons, Option.some.injEq] at h
      subst h
      obtain ⟨hmem, hmin⟩ := sort_by_available_head_min _ _ _ hs
      rw [List.mem_filter] at hmem
      refine ⟨hmem.1, by simpa using hmem.2, ?_⟩
      intro rack' h1 h2
      exact hmin rack' (List.mem_filter.2 ⟨h1, by simpa⟩)

/-- Claim C5 witness: with counts `[5, 2, 8]` and a request for 2 shelves
the returned rack is a member, qualifies, and beats the rack with 5. -/
theorem get_rack_best_fit_witness :
    rackB2 ∈ [rackA5, rackB2, rackC8] ∧ 2 ≤ rack_available_shelves rackB2 ∧
      rack_available_shelves rackB2 ≤ rack_available_shelves rackA5 := by
  obtain ⟨h1, h2, h3⟩ :=
    (get_rack_best_fit [rackA5, rackB2, rackC8] 2).2.1 rackB2 (by decide)
  exact ⟨h1, h2, h3 rackA5 (by decide) (by decide)⟩

/-- Every space surviving the availability search owns at least one rack
whose length reaches the normalized item length. -/
theorem get_available_spaces_rack_long (db : List DbSpace) (search_location : String)
    (search_length search_width search_height : Nat) (a : AnnotatedSpace)
    (ha : a ∈ SpaceService.get_available_spaces db search_location
      search_length search_width search_height) :
    a.space.racks.any (fun rack =>
      decide (max search_length search_width ≤ rack.length)) = true := by
  unfold SpaceService.get_available_spaces at ha
  dsimp only at ha
  split_ifs at ha
  · simp at ha
  · simp at ha
  all_goals
    rw [List.mem_map] at ha
    obtain ⟨s, hs, rfl⟩ := ha
    rw [List.mem_filter] at hs
    have hs2 := hs.1
    rw [List.mem_filter] at hs2
    exact hs2.2

/-- Claim C7 counterexample: the claim says footprint `(60, 10, 10)` is
rejected outright, but against a database holding one approved space with
a 100 cm rack carrying two available shelves the search returns that
space: normalized width 10 and height 10 are within the fixed shelf
dimensions, so the dimension guard does not fire. -/
theorem availability_footprint_60_not_rejected :
    SpaceService.get_available_spaces dbW7 "" 60 10 10 ≠ [] := by decide

/-- Claim C7 (amended): after normalizing so length ≥ width,
`get_available_spaces` returns an empty result whenever the normalized
width exceeds the fixed shelf width 46 or the height exceeds the fixed
shelf height 42; item `(10, 50, 10)` passes the dimension check (and can
return results), item `(10, 10, 50)` yields an empty result, and footprint
`(60, 10, 10)` also passes the dimension check rather than being rejected
outright. -/
theorem availability_dimension_check (db : List DbSpace) (search_location : String)
    (search_length search_width search_height : Nat) :
    (SHELF_WIDTH < min search_length search_width ∨ SHELF_HEIGHT < search_height →
      SpaceService.get_available_spaces db search_location
        search_length search_width search_height = [])
    ∧ SpaceService.get_available_spaces dbW7 "" 10 50 10 ≠ []
    ∧ SpaceService.get_available_spaces dbW7 "" 60 10 10 ≠ [] := by
  refine ⟨?_, by decide, by decide⟩
  intro h
  unfold SpaceService.get_available_spaces
  dsimp only
  rcases h with h | h
  · rw [if_pos h]
  · by_cases hw : SHELF_WIDTH < min search_length search_width
    · rw [if_pos hw]
    · rw [if_neg hw, if_pos h]

/-- Claim C7 witness: item `(10, 10, 50)` trips the height limit and the
search returns the empty result. -/
theorem availability_dimension_check_witness :
    (SHELF_WIDTH < min 10 10 ∨ SHELF_HEIGHT < 50) ∧
    SpaceService.get_available_spaces dbW7 "" 10 10 50 = [] :=
  ⟨by decide, (availability_dimension_check dbW7 "" 10 10 50).1 (by decide)⟩

/-- Claim C10: the search keeps only spaces having at least one rack whose
length reaches the normalized item length, so a space all of whose racks
are shorter than the normalized length is excluded from the result no
matter how many of its shelves are available. -/
theorem availability_rack_length_filter (db : List DbSpace) (search_location : String)
    (search_length search_width search_height : Nat) :
    ((SpaceService.get_available_spaces db search_location
        search_length search_width search_height).all (fun a =>
      a.space.racks.any (fun rack =>
        decide (max search_length search_width ≤ rack.length))) = true)
    ∧ (∀ s : DbSpace,
      s.racks.all (fun rack =>
        decide (rack.length < max search_length search_width)) = true →
      (SpaceService.get_available_spaces db search_location
        search_length search_width search_height).all (fun a =>
          decide (a.space ≠ s)) = true) := by
  constructor
  · rw [List.all_eq_true]
    intro a ha
    exact get_available_spaces_rack_long _ _ _ _ _ a ha
  · intro s hshort
    rw [List.all_eq_true]
    intro a ha
    have hlong := get_available_spaces_rack_long _ _ _ _ _ a ha
    rw [decide_eq_true_iff]
    intro heq
    rw [heq] at hlong
    rw [List.any_eq_true] at hlong
    obtain ⟨rack, hrk, hx⟩ := hlong
    rw [List.all_eq_true] at hshort
    have hy := hshort rack hrk
    simp only [decide_eq_true_iff] at hx hy
    omega

/-- Claim C10 witness: the sample space's only rack is 100 cm, so a search
for a 200 cm item excludes it even though it has available shelves. -/
theorem availability_rack_length_filter_witness :
    spW7.racks.all (fun rack => decide (rack.length < max 200 10)) = true ∧
    (SpaceService.get_available_spaces dbW7 "" 200 10 10).all
      (fun a => decide (a.space ≠ spW7)) = true :=
  ⟨by decide, (availability_rack_length_filter dbW7 "" 200 10 10).2 spW7 (by decide)⟩

/-- Writing a booking's current status back into it is the identity. -/
theorem StoreBooking.set_status_self (b : StoreBooking) (s : String) (h : b.status = s) :
    { b with status := s } = b := by rw [← h]

/-- Writing a booking's current occupancy flag back into it is the identity. -/
theorem StoreBooking.set_occ_self (b : StoreBooking) (v : Bool) (h : b.occupying_space = v) :
    { b with occupying_space := v } = b := by rw [← h]

/-- When neither `update_space` branch fires, the flag already agrees with
the status. -/
theorem occ_matches_of_neither (x : StoreBooking)
    (h1 : ¬(x.status ≠ "ACTIVE" ∧ x.occupying_space = true))
    (h2 : ¬(x.status = "ACTIVE" ∧ ¬ x.occupying_space = true)) :
    x.occupying_space = (x.status == "ACTIVE") := by
  by_cases hs : x.status = "ACTIVE"
  · simp only [hs, beq_self_eq_true]
    by_contra hno
    exact h2 ⟨hs, by simpa using hno⟩
  · have hb : (x.status == "ACTIVE") = false := by simpa using hs
    rw [hb]
    by_contra hocc
    exact h1 ⟨hs, by simpa using hocc⟩

/-- The booking `update_space` hands back: the input with its occupancy
flag set to agree with its status. -/
theorem update_space_snd (store : Store) (b : StoreBooking) :
    (BookingStateService.update_space store b).2 =
      { b with occupying_space := (b.status == "ACTIVE") } := by
  unfold BookingStateService.update_space BookingStateService.release_space
    BookingStateService.occupy_space
  dsimp only
  split_ifs with h1 h2
  · have hc : (b.status == "ACTIVE") = false := by simpa using h1.1
    rw [hc]
  · have hc : (b.status == "ACTIVE") = true := by simpa using h2.1
    rw [hc]
  · exact (StoreBooking.set_occ_self b _ (occ_matches_of_neither b h1 h2)).symm

/-- `update_space` keeps the booking's primary key. -/
theorem update_space_snd_id (store : Store) (b : StoreBooking) :
    ((BookingStateService.update_space store b).2).id = b.id := by
  rw [update_space_snd]

/-- `update_space` establishes `occupying_space == (status == Active)` on
the booking it hands back. -/
theorem update_space_snd_inv (store : Store) (b : StoreBooking) :
    ((BookingStateService.update_space store b).2).occupying_space =
      (((BookingStateService.update_space store b).2).status == "ACTIVE") := by
  rw [update_space_snd]

/-- The booking table after `update_space`: the handed-back booking saved
over its row(s), everything else untouched. -/
theorem update_space_fst_bookings (store : Store) (b : StoreBooking) :
    (BookingStateService.update_space store b).1.bookings =
      replace_by_id store.bookings ((BookingStateService.update_space store b).2) := by
  unfold BookingStateService.update_space StoreBooking.save replace_by_id
    BookingStateService.release_space BookingStateService.occupy_space update_shelves
  dsimp only
  split_ifs <;> rfl

/-- A booking whose flag already agrees with its status makes `update_space`
a pure save: no shelf is touched and the booking is unchanged. -/
theorem update_space_noop (store : Store) (b : StoreBooking)
    (h : b.occupying_space = (b.status == "ACTIVE")) :
    BookingStateService.update_space store b = (StoreBooking.save store b, b) := by
  unfold BookingStateService.update_space
  dsimp only
  rw [if_neg, if_neg]
  · intro hc
    rw [h] at hc
    simp [hc.1] at hc
  · intro hc
    rw [h] at hc
    simp [hc.1] at hc

/-- After the bulk availability update, every targeted shelf carries the
written bit. -/
theorem update_shelves_all (store : Store) (ids : List Nat) (v : Bool) :
    (update_shelves store ids v).shelves.all
      (fun s => !ids.contains s.id || (s.is_available == v)) = true := by
  rw [List.all_eq_true]
  intro s hs
  unfold update_shelves at hs
  dsimp only at hs
  rw [List.mem_map] at hs
  obtain ⟨t, ht, rfl⟩ := hs
  by_cases hid : t.id ∈ ids
  · simp [hid]
  · simp [hid]

/-- `auto_status` keeps the primary key. -/
theorem auto_status_id (today : Int) (b : StoreBooking) :
    (auto_status today b).id = b.id := by
  unfold auto_status
  split_ifs <;> rfl

/-- `auto_status` keeps the dates and the occupancy flag. -/
theorem auto_status_keeps (today : Int) (b : StoreBooking) :
    (auto_status today b).start_date = b.start_date ∧
      (auto_status today b).end_date = b.end_date ∧
      (auto_status today b).occupying_space = b.occupying_space := by
  unfold auto_status
  split_ifs <;> exact ⟨rfl, rfl, rfl⟩

/-- In the release branch, the store's shelves after `update_space` are
those written by the bulk make-available update. -/
theorem update_space_fst_shelves_release (store : Store) (b : StoreBooking)
    (h1 : b.status ≠ "ACTIVE") (h2 : b.occupying_space = true) :
    (BookingStateService.update_space store b).1.shelves =
      (update_shelves store (BookingService.get_shelves store b) true).shelves := by
  unfold BookingStateService.update_space BookingStateService.release_space
    StoreBooking.save
  dsimp only
  rw [if_pos ⟨h1, h2⟩]

/-- In the occupy branch, the store's shelves after `update_space` are
those written by the bulk make-unavailable update. -/
theorem update_space_fst_shelves_occupy (store : Store) (b : StoreBooking)
    (h1 : b.status = "ACTIVE") (h2 : b.occupying_space = false) :
    (BookingStateService.update_space store b).1.shelves =
      (update_shelves store (BookingService.get_shelves store b) false).shelves := by
  unfold BookingStateService.update_space BookingStateService.occupy_space
    StoreBooking.save
  dsimp only
  rw [if_neg, if_pos ⟨h1, by simp [h2]⟩]
  intro hc
  rw [h2] at hc
  exact hc.1 h1

/-- Claim C1: after any `update_space(booking)` call the booking satisfies
`occupying_space == (status == Active)` and its status is untouched; a
non-Active occupying booking is released (flag cleared, its derived shelf
set marked available), an Active non-occupying booking occupies (flag set,
its derived shelf set marked unavailable), every other combination is a
pure save; and after every `update_status` call (which always invokes
`update_space`) the persisted row satisfies the invariant. -/
theorem booking_update_space_invariant (store : Store) (booking : StoreBooking) :
    ((BookingStateService.update_space store booking).2.occupying_space =
      ((BookingStateService.update_space store booking).2.status == "ACTIVE"))
    ∧ ((BookingStateService.update_space store booking).2.status = booking.status)
    ∧ (booking.status ≠ "ACTIVE" → booking.occupying_space = true →
      (BookingStateService.update_space store booking).2.occupying_space = false ∧
        (BookingStateService.update_space store booking).1.shelves.all (fun s =>
          !(BookingService.get_shelves store booking).contains s.id ||
            (s.is_available == true)) = true)
    ∧ (booking.status = "ACTIVE" → booking.occupying_space = false →
      (BookingStateService.update_space store booking).2.occupying_space = true ∧
        (BookingStateService.update_space store booking).1.shelves.all (fun s =>
          !(BookingService.get_shelves store booking).contains s.id ||
            (s.is_available == false)) = true)
    ∧ (booking.occupying_space = (booking.status == "ACTIVE") →
      BookingStateService.update_space store booking =
        (StoreBooking.save store booking, booking))
    ∧ (∀ (today : Int) (new_status : Option String),
      (BookingStateService.update_status today store booking new_status).1.bookings.all
        (fun x => x.id != booking.id ||
          (x.occupying_space == (x.status == "ACTIVE"))) = true) := by
  refine ⟨update_space_snd_inv store booking, ?_, ?_, ?_, ?_, ?_⟩
  · rw [update_space_snd]
  · intro h1 h2
    refine ⟨?_, ?_⟩
    · rw [update_space_snd]
      simpa using h1
    · rw [update_space_fst_shelves_release store booking h1 h2]
      exact update_shelves_all store _ true
  · intro h1 h2
    refine ⟨?_, ?_⟩
    · rw [update_space_snd]
      simp [h1]
    · rw [update_space_fst_shelves_occupy store booking h1 h2]
      exact update_shelves_all store _ false
  · exact update_space_noop store booking
  · intro today ns
    have hb : ∃ b', BookingStateService.update_status today store booking ns =
        BookingStateService.update_space store b' ∧ b'.id = booking.id := by
      unfold BookingStateService.update_status
      cases ns with
      | none => exact ⟨auto_status today booking, rfl, auto_status_id today booking⟩
      | some s =>
        dsimp only
        by_cases hv : BookingStateService.is_valid_status s
        · rw [if_pos hv]
          exact ⟨{ booking with status := s }, rfl, rfl⟩
        · rw [if_neg hv]
          exact ⟨booking, rfl, rfl⟩
    obtain ⟨b', heq, hid⟩ := hb
    rw [heq, List.all_eq_true]
    intro x hx
    rw [update_space_fst_bookings] at hx
    unfold replace_by_id at hx
    rw [List.mem_map] at hx
    obtain ⟨y, hy, rfl⟩ := hx
    by_cases hyid : (y.id == (BookingStateService.update_space store b').2.id) = true
    · rw [if_pos hyid]
      simp [update_space_snd_inv store b']
    · rw [if_neg (by simpa using hyid)]
      have hne : (y.id != booking.id) = true := by
        rw [update_space_snd_id, hid] at hyid
        simpa using hyid
      rw [hne]
      rfl

/-- Claim C1 witness: the past-but-occupying sample booking is released —
flag cleared and its shelf set marked available. -/
theorem booking_update_space_invariant_witness :
    bW1.status ≠ "ACTIVE" ∧ bW1.occupying_space = true ∧
    (BookingStateService.update_space storeW1 bW1).2.occupying_space = false ∧
    (BookingStateService.update_space storeW1 bW1).1.shelves.all (fun s =>
      !(BookingService.get_shelves storeW1 bW1).contains s.id ||
        (s.is_available == true)) = true := by
  have h := (booking_update_space_invariant storeW1 bW1).2.2.1 (by decide) (by decide)
  exact ⟨by decide, by decide, h.1, h.2⟩

/-- The status the automatic `update_status` hands back is the one
`auto_status` computed (the trailing `update_space` never changes it). -/
theorem update_status_none_status (today : Int) (store : Store) (b : StoreBooking) :
    (BookingStateService.update_status today store b none).2.status =
      (auto_status today b).status := by
  unfold BookingStateService.update_status
  dsimp only
  rw [update_space_snd]

/-- Claim C6: automatic `update_status` (no explicit target) leaves a
Cancelled booking's status untouched and otherwise recomputes it from
today's date — Past when `end_date < today`, Active when
`start_date ≤ today ≤ end_date`, Booked when `today < start_date`; in
every case `update_space` runs (the handed-back booking satisfies the
occupancy invariant) and the booking is persisted (every row with its id
carries exactly the recomputed booking). -/
theorem update_status_automatic (today : Int) (store : Store) (b : StoreBooking)
    (hdates : b.start_date ≤ b.end_date) :
    (b.status ≠ "CANCELLED" → b.end_date < today →
      (BookingStateService.update_status today store b none).2.status = "PAST")
    ∧ (b.status ≠ "CANCELLED" → b.start_date ≤ today → today ≤ b.end_date →
      (BookingStateService.update_status today store b none).2.status = "ACTIVE")
    ∧ (b.status ≠ "CANCELLED" → today < b.start_date →
      (BookingStateService.update_status today store b none).2.status = "BOOKED")
    ∧ (b.status = "CANCELLED" →
      (BookingStateService.update_status today store b none).2.status = "CANCELLED")
    ∧ ((BookingStateService.update_status today store b none).2.occupying_space =
      ((BookingStateService.update_status today store b none).2.status == "ACTIVE"))
    ∧ ((BookingStateService.update_status today store b none).1.bookings.all (fun x =>
      x.id != b.id ||
        decide (x = (BookingStateService.update_status today store b none).2)) =
      true) := by
  refine ⟨?_, ?_, ?_, ?_, ?_, ?_⟩
  · intro h1 h2
    rw [update_status_none_status]
    unfold auto_status
    rw [if_pos h1, if_pos h2]
  · intro h1 h2 h3
    rw [update_status_none_status]
    unfold auto_status
    rw [if_pos h1, if_neg (by omega : ¬ b.end_date < today), if_pos h2]
  · intro h1 h2
    rw [update_status_none_status]
    unfold auto_status
    rw [if_pos h1, if_neg (by omega : ¬ b.end_date < today),
      if_neg (by omega : ¬ b.start_date ≤ today)]
  · intro h
    rw [update_status_none_status]
    unfold auto_status
    rw [if_neg (not_not_intro h)]
    exact h
  · unfold BookingStateService.update_status
    dsimp only
    exact update_space_snd_inv store (auto_status today b)
  · unfold BookingStateService.update_status
    dsimp only
    rw [List.all_eq_true]
    intro x hx
    rw [update_space_fst_bookings] at hx
    unfold replace_by_id at hx
    rw [List.mem_map] at hx
    obtain ⟨y, hy, rfl⟩ := hx
    by_cases hyid :
        (y.id == (BookingStateService.update_space store (auto_status today b)).2.id) = true
    · rw [if_pos hyid]
      simp
    · rw [if_neg (by simpa using hyid)]
      have hne : (y.id != b.id) = true := by
        rw [update_space_snd_id, auto_status_id] at hyid
        simpa using hyid
      rw [hne]
      rfl

/-- Claim C6 witness: today 5 falls inside `bW6`'s range 0..9, so the
automatic pass makes the booking Active. -/
theorem update_status_automatic_witness :
    bW6.start_date ≤ bW6.end_date ∧
    (BookingStateService.update_status 5 storeW6 bW6 none).2.status = "ACTIVE" :=
  ⟨by decide,
    (update_status_automatic 5 storeW6 bW6 (by decide)).2.1 (by decide) (by decide)
      (by decide)⟩

/-- Claim C9: for `end_date ≥ start_date`, `get_total_days` is the
inclusive duration `(end − start) + 1` (1 when the dates coincide, never
0), and on a booking whose `total_price` was computed as
`days × rate × shelves`, `get_price_per_day` returns exactly the rate. -/
theorem pricing_round_trip (b : StoreBooking) (rate : ℚ)
    (hdates : b.start_date ≤ b.end_date)
    (hshelves : 0 < b.num_shelves_occupied)
    (hprice : b.total_price =
      (BookingService.get_total_days b : ℚ) * rate * (b.num_shelves_occupied : ℚ)) :
    BookingService.get_total_days b = (b.end_date - b.start_date) + 1
    ∧ (b.start_date = b.end_date → BookingService.get_total_days b = 1)
    ∧ BookingService.get_price_per_day b = rate := by
  refine ⟨rfl, ?_, ?_⟩
  · intro h
    unfold BookingService.get_total_days DateMgr.get_total_days
    omega
  · have hdays : (0 : ℤ) < BookingService.get_total_days b := by
      unfold BookingService.get_total_days DateMgr.get_total_days
      omega
    unfold BookingService.get_price_per_day
    rw [hprice]
    have h1 : ((BookingService.get_total_days b : ℚ)) ≠ 0 := by
      exact_mod_cast hdays.ne'
    have h2 : ((b.num_shelves_occupied : ℚ)) ≠ 0 := by
      exact_mod_cast hshelves.ne'
    field_simp
    ring

/-- Claim C9 witness: 2 shelves over the 3 inclusive days 0..2 at rate
6.99 give `total_price = 41.94` and `get_price_per_day = 6.99`. -/
theorem pricing_round_trip_witness :
    bW9.start_date ≤ bW9.end_date ∧ 0 < bW9.num_shelves_occupied ∧
    bW9.total_price =
      (BookingService.get_total_days bW9 : ℚ) * (699 / 100) *
        (bW9.num_shelves_occupied : ℚ) ∧
    BookingService.get_price_per_day bW9 = 699 / 100 := by
  refine ⟨by decide, by decide, ?_, ?_⟩
  · norm_num [bW9, BookingService.get_total_days, DateMgr.get_total_days]
  · exact (pricing_round_trip bW9 (699 / 100) (by decide) (by decide)
      (by norm_num [bW9, BookingService.get_total_days, DateMgr.get_total_days])).2.2

/-- `process_booking` keeps the primary key. -/
theorem process_booking_id (today : Int) (b : StoreBooking) :
    (process_booking today b).id = b.id := by
  unfold process_booking
  dsimp only
  exact auto_status_id today b

/-- The automatic `update_status` hands back exactly `process_booking`. -/
theorem update_status_none_snd (today : Int) (store : Store) (b : StoreBooking) :
    (BookingStateService.update_status today store b none).2 =
      process_booking today b := by
  unfold BookingStateService.update_status process_booking
  dsimp only
  exact update_space_snd store (auto_status today b)

/-- The booking table after one automatic `update_status`: the processed
booking saved over its row(s). -/
theorem update_status_none_fst_bookings (today : Int) (store : Store) (b : StoreBooking) :
    (BookingStateService.update_status today store b none).1.bookings =
      replace_by_id store.bookings (process_booking today b) := by
  unfold BookingStateService.update_status
  dsimp only
  rw [update_space_fst_bookings, update_space_snd]
  rfl

/-- The booking table of a batch run is the fold of per-booking saves. -/
theorem update_status_all_bookings (today : Int) :
    ∀ (l : List StoreBooking) (store : Store),
      (l.foldl (fun st b => (BookingStateService.update_status today st b none).1)
        store).bookings =
      l.foldl (fun bs b => replace_by_id bs (process_booking today b)) store.bookings := by
  intro l
  induction l with
  | nil => intro store; rfl
  | cons b t ih =>
    intro store
    simp only [List.foldl_cons]
    rw [ih]
    congr 1
    exact update_status_none_fst_bookings today store b

/-- Saving a booking whose key occurs nowhere changes nothing. -/
theorem replace_by_id_not_mem (bs : List StoreBooking) (c : StoreBooking)
    (h : ∀ x ∈ bs, x.id ≠ c.id) : replace_by_id bs c = bs := by
  induction bs with
  | nil => rfl
  | cons x t ih =>
    unfold replace_by_id at *
    simp only [List.map_cons]
    rw [if_neg (by simpa using h x (List.mem_cons_self x t))]
    rw [ih (fun y hy => h y (List.mem_cons_of_mem _ hy))]

/-- Saving over a table whose only row with the saved key sits between two
key-disjoint blocks rewrites exactly that row. -/
theorem replace_by_id_append (bs1 bs2 : List StoreBooking) (b c : StoreBooking)
    (hid : b.id = c.id)
    (h1 : ∀ x ∈ bs1, x.id ≠ c.id) (h2 : ∀ x ∈ bs2, x.id ≠ c.id) :
    replace_by_id (bs1 ++ b :: bs2) c = bs1 ++ c :: bs2 := by
  unfold replace_by_id
  rw [List.map_append, List.map_cons]
  have e1 : bs1.map (fun x => if x.id == c.id then c else x) = bs1 := by
    have := replace_by_id_not_mem bs1 c h1
    unfold replace_by_id at this
    exact this
  have e2 : bs2.map (fun x => if x.id == c.id then c else x) = bs2 := by
    have := replace_by_id_not_mem bs2 c h2
    unfold replace_by_id at this
    exact this
  rw [e1, e2, if_pos (by simpa using hid)]

/-- Folding the per-booking saves of a key-distinct table over itself
rewrites each row once, in place. -/
theorem foldl_replace_self (today : Int) :
    ∀ (l pre : List StoreBooking),
      ((pre ++ l).map StoreBooking.id).Nodup →
      l.foldl (fun bs b => replace_by_id bs (process_booking today b))
        (pre.map (process_booking today) ++ l) =
      pre.map (process_booking today) ++ l.map (process_booking today) := by
  intro l
  induction l with
  | nil => intro pre h; simp
  | cons b t ih =>
    intro pre h
    have hdisj : ∀ y ∈ pre, y.id ≠ b.id := by
      intro y hy hcon
      rw [List.map_append, List.nodup_append] at h
      exact h.2.2 (List.mem_map_of_mem StoreBooking.id hy)
        (by rw [List.map_cons]; exact hcon ▸ List.mem_cons_self y.id _)
    have htail : ∀ x ∈ t, x.id ≠ b.id := by
      intro x hx hcon
      rw [List.map_append, List.map_cons] at h
      have := (List.nodup_append.1 h).2.1
      rw [List.nodup_cons] at this
      exact this.1 (hcon ▸ List.mem_map_of_mem StoreBooking.id hx)
    simp only [List.foldl_cons]
    have hstep : replace_by_id (pre.map (process_booking today) ++ b :: t)
        (process_booking today b) =
        pre.map (process_booking today) ++ process_booking today b :: t := by
      apply replace_by_id_append
      · exact (process_booking_id today b).symm
      · intro x hx
        rw [List.mem_map] at hx
        obtain ⟨y, hy, rfl⟩ := hx
        rw [process_booking_id, process_booking_id]
        exact hdisj y hy
      · intro x hx
        rw [process_booking_id]
        exact htail x hx
    rw [hstep]
    have hshift : pre.map (process_booking today) ++ process_booking today b :: t =
        (pre ++ [b]).map (process_booking today) ++ t := by
      simp
    rw [hshift]
    have hnd : (((pre ++ [b]) ++ t).map StoreBooking.id).Nodup := by
      simpa [List.append_assoc] using h
    rw [ih (pre ++ [b]) hnd]
    simp

/-- One batch run over a key-distinct table maps `process_booking` over
every row. -/
theorem update_status_all_spec (today : Int) (store : Store)
    (h : (store.bookings.map StoreBooking.id).Nodup) :
    (BookingStateService.update_status_all today store).bookings =
      store.bookings.map (process_booking today) := by
  unfold BookingStateService.update_status_all
  rw [update_status_all_bookings]
  have := foldl_replace_self today store.bookings [] (by simpa using h)
  simpa using this

/-- A processed booking satisfies the occupancy invariant. -/
theorem process_booking_inv (today : Int) (b : StoreBooking) :
    (process_booking today b).occupying_space =
      ((process_booking today b).status == "ACTIVE") := rfl

/-- Setting the occupancy flag commutes with the date recomputation. -/
theorem auto_status_set_occ (today : Int) (b : StoreBooking) (v : Bool) :
    auto_status today { b with occupying_space := v } =
      { auto_status today b with occupying_space := v } := by
  unfold auto_status
  dsimp only
  split_ifs <;> rfl

/-- Recomputing a just-recomputed status with the same date is the
identity. -/
theorem auto_status_idem (today : Int) (b : StoreBooking) :
    auto_status today (auto_status today b) = auto_status today b := by
  by_cases hc : b.status = "CANCELLED"
  · have hauto : auto_status today b = b := by
      unfold auto_status
      rw [if_neg (not_not_intro hc)]
    rw [hauto]
    exact hauto
  · by_cases h2 : b.end_date < today
    · have ha : auto_status today b = { b with status := "PAST" } := by
        unfold auto_status
        rw [if_pos hc, if_pos h2]
      rw [ha]
      unfold auto_status
      dsimp only
      rw [if_pos (by decide : ("PAST" : String) ≠ "CANCELLED"), if_pos h2]
    · by_cases h3 : b.start_date ≤ today
      · have ha : auto_status today b = { b with status := "ACTIVE" } := by
          unfold auto_status
          rw [if_pos hc, if_neg h2, if_pos h3]
        rw [ha]
        unfold auto_status
        dsimp only
        rw [if_pos (by decide : ("ACTIVE" : String) ≠ "CANCELLED"), if_neg h2, if_pos h3]
      · have ha : auto_status today b = { b with status := "BOOKED" } := by
          unfold auto_status
          rw [if_pos hc, if_neg h2, if_neg h3]
        rw [ha]
        unfold auto_status
        dsimp only
        rw [if_pos (by decide : ("BOOKED" : String) ≠ "CANCELLED"), if_neg h2, if_neg h3]

/-- A processed booking is a fixed point of the date recomputation (with
the same current date). -/
theorem auto_status_on_processed (today : Int) (b : StoreBooking) :
    auto_status today (process_booking today b) = process_booking today b := by
  unfold process_booking
  dsimp only
  rw [auto_status_set_occ, auto_status_idem]

/-- Rows of a key-distinct table sharing a key are equal. -/
theorem eq_of_mem_id_nodup {bs : List StoreBooking}
    (h : (bs.map StoreBooking.id).Nodup) {x b : StoreBooking}
    (hx : x ∈ bs) (hb : b ∈ bs) (hid : x.id = b.id) : x = b :=
  List.inj_on_of_nodup_map h hx hb hid

/-- Re-running the automatic pass over bookings that are already processed
(flag in sync, status a fixed point) changes nothing. -/
theorem foldl_update_noop (today : Int) :
    ∀ (l : List StoreBooking) (store : Store),
      (store.bookings.map StoreBooking.id).Nodup →
      (∀ b ∈ l, b ∈ store.bookings ∧
        b.occupying_space = (b.status == "ACTIVE") ∧ auto_status today b = b) →
      l.foldl (fun st b => (BookingStateService.update_status today st b none).1)
        store = store := by
  intro l
  induction l with
  | nil => intro store _ _; rfl
  | cons b t ih =>
    intro store hnd hall
    obtain ⟨hmem, hinv, hstable⟩ := hall b (List.mem_cons_self b t)
    have hstep : (BookingStateService.update_status today store b none).1 = store := by
      unfold BookingStateService.update_status
      dsimp only
      rw [hstable, update_space_noop store b hinv]
      unfold StoreBooking.save
      dsimp only
      have hmap : store.bookings.map (fun x => if x.id == b.id then b else x) =
          store.bookings := by
        have hpt : ∀ x ∈ store.bookings, (if (x.id == b.id) = true then b else x) = x := by
          intro x hx
          by_cases hxid : (x.id == b.id) = true
          · rw [if_pos hxid]
            exact (eq_of_mem_id_nodup hnd hx hmem (by simpa using hxid)).symm
          · rw [if_neg hxid]
        rw [List.map_congr_left hpt, List.map_id']
      rw [hmap]
    simp only [List.foldl_cons]
    rw [hstep]
    exact ih store hnd (fun y hy => hall y (List.mem_cons_of_mem _ hy))

/-- Claim C8: with the current date unchanged and no interleaved
operations, a second `update_status_all()` run leaves every booking's
status and occupancy flag and every shelf's availability bit exactly as
the first run left them (the whole store is a fixed point), given that
bookings carry distinct primary keys. -/
theorem update_status_all_idempotent (today : Int) (store : Store)
    (h : (store.bookings.map StoreBooking.id).Nodup) :
    BookingStateService.update_status_all today
        (BookingStateService.update_status_all today store) =
      BookingStateService.update_status_all today store := by
  have hbk : (BookingStateService.update_status_all today store).bookings =
      store.bookings.map (process_booking today) := update_status_all_spec today store h
  have hnd : ((BookingStateService.update_status_all today store).bookings.map
      StoreBooking.id).Nodup := by
    rw [hbk, List.map_map]
    have heq : StoreBooking.id ∘ process_booking today = StoreBooking.id :=
      funext fun y => process_booking_id today y
    rw [heq]
    exact h
  have hall : ∀ b ∈ (BookingStateService.update_status_all today store).bookings,
      b ∈ (BookingStateService.update_status_all today store).bookings ∧
        b.occupying_space = (b.status == "ACTIVE") ∧ auto_status today b = b := by
    intro b hb
    refine ⟨hb, ?_, ?_⟩
    · rw [hbk] at hb
      obtain ⟨y, hy, rfl⟩ := List.mem_map.1 hb
      exact process_booking_inv today y
    · rw [hbk] at hb
      obtain ⟨y, hy, rfl⟩ := List.mem_map.1 hb
      exact auto_status_on_processed today y
  exact foldl_update_noop today (BookingStateService.update_status_all today store).bookings
    (BookingStateService.update_status_all today store) hnd hall

/-- Claim C8 witness: the two-booking sample store (distinct keys, one
booking to activate, one past booking to release) is a fixed point of the
second batch run. -/
theorem update_status_all_idempotent_witness :
    (storeW8.bookings.map StoreBooking.id).Nodup ∧
    BookingStateService.update_status_all 5
        (BookingStateService.update_status_all 5 storeW8) =
      BookingStateService.update_status_all 5 storeW8 :=
  ⟨by decide, update_status_all_idempotent 5 storeW8 (by decide)⟩

end ProjectStorage
